import Mathlib

/-!
Shallow embedding of `src/prediction/predictor_model.py` from the repository
`rt_tspc_gaussian_process_sklearn`: a Gaussian Process time-series annotator
wrapping an sklearn `MultiOutputClassifier`.  Machine floats are modelled as
rationals; numpy arrays as nested lists; Python exceptions as `Except`;
the filesystem touched by `save`/`load` as an association list.
-/

namespace PredictorModel

/-- Outcomes of the Python exceptions that `predictor_model.py` can raise or
propagate: `ValueError` from the shape checks in `_get_X_and_y`,
`NotFittedError` (raised by `save`, or propagated from sklearn when an
unfitted estimator is used), and `FileNotFoundError` from `joblib.load` on a
missing file. -/
inductive Err where
  | valueError
  | notFitted
  | fileNotFound
deriving DecidableEq

/-- An input tensor of shape (N, T, D): N windows, each a list of T timestep
rows, each row a list of D values (column 0 = series id, column 1 = time id,
then covariates, and for training data the target label last). -/
abbrev Tensor := List (List (List ℚ))

/-- Rectangularity of a nested-list tensor, mirroring a numpy array of shape
(N, T, D). -/
def HasShape (data : Tensor) (N T D : ℕ) : Prop :=
  data.length = N ∧ ∀ w ∈ data, w.length = T ∧ ∀ r ∈ w, r.length = D

/-- Modelled from the spec: `PADDING_VALUE` is imported from
`preprocessing.custom_transformers`, which is not under `src/`; the spec
describes it as a "reserved time-id value marking non-real timesteps to be
excluded from output".  Its concrete value is irrelevant to every claim; any
fixed reserved constant serves. -/
def PADDING_VALUE : ℚ := -1

/-- Python `ndarray.astype(int)` on a float value: truncation toward zero. -/
def ratToInt (x : ℚ) : Int := if 0 ≤ x then x.floor else x.ceil

/-- Modelled from the spec: the part of `TSAnnotationSchema` (module
`schema.data_schema`, not under `src/`) that `predictor_model.py` reads,
namely `target_classes`, the fixed set of annotation classes. -/
structure TSAnnotationSchema where
  target_classes : List String

/-- Modelled from the spec: the learned state of the external sklearn
`MultiOutputClassifier(GaussianProcessClassifier(...))`.  The statistical
learning is entirely delegated to the library, so the fitted predictor is an
opaque pair of functions: per-output class-probability arrays
(`predict_proba`, one (samples × classes) block per output) and per-output
hard labels (`predict`). -/
structure FittedParams where
  proba : List (List ℚ) → List (List (List ℚ))
  labels : List (List ℚ) → List (List Int)

/-- Modelled from the spec: an sklearn estimator object.  It always exists
(it is built in `__init__`), and is either unfitted or fitted; sklearn's
`check_is_fitted` raises `NotFittedError` when `predict`/`predict_proba` is
called on an unfitted estimator. -/
structure Estimator where
  fitted : Option FittedParams

/-- Modelled from the spec: `MultiOutputClassifier.predict_proba`, which
raises `NotFittedError` on an unfitted estimator and otherwise returns the
opaque fitted probability function's output. -/
def Estimator.predictProba (e : Estimator) (x : List (List ℚ)) :
    Except Err (List (List (List ℚ))) :=
  match e.fitted with
  | none => .error .notFitted
  | some p => .ok (p.proba x)

/-- Modelled from the spec: `MultiOutputClassifier.predict`, which raises
`NotFittedError` on an unfitted estimator and otherwise returns the opaque
fitted label function's output. -/
def Estimator.predictLabels (e : Estimator) (x : List (List ℚ)) :
    Except Err (List (List Int)) :=
  match e.fitted with
  | none => .error .notFitted
  | some p => .ok (p.labels x)

/-- Modelled from the spec: `MultiOutputClassifier.fit` replaces the
estimator's state with a fitted one.  What is learned is external library
code, so the learner is an explicit parameter. -/
def Estimator.fit (learn : List (List ℚ) → List (List Int) → FittedParams)
    (_e : Estimator) (x : List (List ℚ)) (y : List (List Int)) : Estimator :=
  ⟨some (learn x y)⟩

/-- The `TSAnnotator` wrapper object: schema, encode length, multiclass
strategy, the held estimator and the `_is_trained` flag, as set up by
`TSAnnotator.__init__`. -/
structure TSAnnotator where
  data_schema : TSAnnotationSchema
  encode_len : ℕ
  multi_class : String
  model : Estimator
  is_trained : Bool

/-- `TSAnnotator.__init__`: builds the (unfitted) estimator via `build_model`
and sets `_is_trained = False`.  The field `is_trained` embeds the Python
attribute `_is_trained`. -/
def TSAnnotator.new (data_schema : TSAnnotationSchema) (encode_len : ℕ)
    (multi_class : String) : TSAnnotator :=
  { data_schema := data_schema, encode_len := encode_len,
    multi_class := multi_class, model := ⟨none⟩, is_trained := false }

/-- The `is_train=True` arm of `TSAnnotator._get_X_and_y`: raises
`ValueError` unless T equals `encode_len`; otherwise
`X = data[:, :, 2:-1].reshape(N, -1)` and `y = data[:, :, -1].astype(int)`. -/
def TSAnnotator.getXyTrain (m : TSAnnotator) (data : Tensor) :
    Except Err (List (List ℚ) × List (List Int)) :=
  if (data.headD []).length ≠ m.encode_len then .error .valueError
  else .ok
    (data.map (fun w => (w.map (fun r => (r.drop 2).dropLast)).flatten),
     data.map (fun w => w.map (fun r => ratToInt (r.getLastD 0))))

/-- The `is_train=False` arm of `TSAnnotator._get_X_and_y`: raises
`ValueError` when T < `encode_len`; otherwise
`X = data[:, :, 2:].reshape(N, -1)` and `y = data[:, :, 0:2]` (the per-step
(series id, time id) columns, called `window_ids` at the call site). -/
def TSAnnotator.getXyInfer (m : TSAnnotator) (data : Tensor) :
    Except Err (List (List ℚ) × List (List (List ℚ))) :=
  if (data.headD []).length < m.encode_len then .error .valueError
  else .ok
    (data.map (fun w => (w.map (fun r => r.drop 2)).flatten),
     data.map (fun w => w.map (fun r => r.take 2)))

/-- `TSAnnotator.fit`: extract X, y through the training arm (which may raise
`ValueError`), fit the estimator, set `_is_trained = True`. -/
def TSAnnotator.fit (learn : List (List ℚ) → List (List Int) → FittedParams)
    (m : TSAnnotator) (data : Tensor) : Except Err TSAnnotator := do
  let xy ← m.getXyTrain data
  .ok { m with model := m.model.fit learn xy.1 xy.2, is_trained := true }

/-- The truncation loop at the top of `TSAnnotator.predict`:
`if preds[i].shape[0] > len(self.data_schema.target_classes):
preds[i] = preds[i][:-1]`.  Note that `shape[0]` is the number of sample
rows of the i-th per-output block and `[:-1]` drops its last row. -/
def truncStep (numClasses : ℕ) (preds : List (List (List ℚ))) :
    List (List (List ℚ)) :=
  preds.map (fun p => if numClasses < p.length then p.dropLast else p)

/-- `series_id = window_ids[index][0][0]`: the series id taken from column 0
of the window's first timestep row. -/
def seriesIdOf (wid : List (List ℚ)) : ℚ := (wid.headD []).headD 0

/-- `window_ids[index][step_index][1]`: the time id taken from column 1 of a
timestep row. -/
def timeIdOf (idrow : List ℚ) : ℚ := idrow.getD 1 0

/-- The filter of the dict comprehension in `predict`:
`if k[1] != PADDING_VALUE`, a test on the time-id component of the key only. -/
def padKeep (k : ℚ × ℚ) : Bool := decide (k.2 ≠ PADDING_VALUE)

/-- One execution of `prob_dict[step_id] = prob_dict.get(step_id, []) + [step]`
on an insertion-ordered association list embedding the Python dict. -/
def dictAdd (d : List ((ℚ × ℚ) × List (List ℚ))) (k : ℚ × ℚ) (v : List ℚ) :
    List ((ℚ × ℚ) × List (List ℚ)) :=
  match d with
  | [] => [(k, [v])]
  | (k2, vs) :: rest =>
      if k2 = k then (k2, vs ++ [v]) :: rest else (k2, vs) :: dictAdd rest k v

/-- `prob_dict.get(k, [])` on the association list. -/
def dget (d : List ((ℚ × ℚ) × List (List ℚ))) (k : ℚ × ℚ) : List (List ℚ) :=
  match d with
  | [] => []
  | (k2, vs) :: rest => if k2 = k then vs else dget rest k

/-- The (key, probability-step) pairs one window contributes, in the order
the inner loop of `predict` visits them: step j of window `wid` is keyed
`(sid, timeIdOf wid[j])` where `sid` is fixed for the whole window. -/
def windowPairs (sid : ℚ) (pred wid : List (List ℚ)) :
    List ((ℚ × ℚ) × List ℚ) :=
  (pred.zip wid).map (fun sp => ((sid, timeIdOf sp.2), sp.1))

/-- The stream of (key, step-vector) pairs the two nested loops of `predict`
feed into `prob_dict`, in visiting order: windows in order of `preds` after
transposition (zipped against `window_ids`), then steps within the window. -/
def allPairs (predsT wids : List (List (List ℚ))) :
    List ((ℚ × ℚ) × List ℚ) :=
  ((predsT.zip wids).map (fun pw => windowPairs (seriesIdOf pw.2) pw.1 pw.2)).flatten

/-- The `prob_dict` built by the nested loops of `predict` (lines 112-119):
a fold of `dictAdd` over the visited (key, step) pairs. -/
def buildDict (predsT wids : List (List (List ℚ))) :
    List ((ℚ × ℚ) × List (List ℚ)) :=
  (allPairs predsT wids).foldl (fun d kv => dictAdd d kv.1 kv.2) []

/-- `np.mean(np.array(v), axis=0)`: the elementwise arithmetic mean of a
nonempty list of equal-length vectors. -/
def meanVec (vs : List (List ℚ)) : List ℚ :=
  match vs with
  | [] => []
  | v :: rest =>
      (rest.foldl (fun acc w => List.zipWith (· + ·) acc w) v).map
        (fun x => x / (vs.length : ℚ))

/-- The dict comprehension of `predict` (lines 121-125): keep keys whose
time id differs from the padding sentinel and replace each value list by its
elementwise mean. -/
def aggFilter (d : List ((ℚ × ℚ) × List (List ℚ))) :
    List ((ℚ × ℚ) × List ℚ) :=
  d.filterMap (fun kv => if padKeep kv.1 then some (kv.1, meanVec kv.2) else none)

/-- Python's ascending order on `(series id, time id)` tuples: lexicographic. -/
def keyLe (a b : ℚ × ℚ) : Prop := a.1 < b.1 ∨ (a.1 = b.1 ∧ a.2 ≤ b.2)

instance : DecidableRel keyLe := fun a b => by unfold keyLe; exact inferInstance

/-- `sorted(prob_dict.keys())`. -/
def sortedKeys (agg : List ((ℚ × ℚ) × List ℚ)) : List (ℚ × ℚ) :=
  List.insertionSort keyLe (agg.map Prod.fst)

/-- `prob_dict[key]` lookup used to rebuild `sorted_dict` from the sorted
keys. -/
def aggGet (agg : List ((ℚ × ℚ) × List ℚ)) (k : ℚ × ℚ) : List ℚ :=
  match agg with
  | [] => []
  | (k2, v) :: rest => if k2 = k then v else aggGet rest k

/-- `TSAnnotator.predict` up to (and including) building `sorted_dict`,
keeping the keys alongside the rows: reshape through the inference arm of
`_get_X_and_y`, call `predict_proba`, truncate per-output blocks, transpose
to window-major order, aggregate into `prob_dict`, filter padding keys and
average, then list the (key, averaged vector) pairs by ascending key. -/
def TSAnnotator.predictPairs (m : TSAnnotator) (data : Tensor) :
    Except Err (List ((ℚ × ℚ) × List ℚ)) := do
  let xw ← m.getXyInfer data
  let raw ← m.model.predictProba xw.1
  let predsT := (truncStep m.data_schema.target_classes.length raw).transpose
  let agg := aggFilter (buildDict predsT xw.2)
  .ok ((sortedKeys agg).map (fun k => (k, aggGet agg k)))

/-- `TSAnnotator.predict`: `np.vstack(sorted_dict.values())`, the rows of
`predictPairs` without their keys. -/
def TSAnnotator.predict (m : TSAnnotator) (data : Tensor) :
    Except Err (List (List ℚ)) :=
  (m.predictPairs data).map (fun ps => ps.map Prod.snd)

/-- The probability-step vectors contributed to one key, gathered over the
same (window, step) enumeration as the loops of `predict`.  This is the
specification-side reading of "the vectors accumulated for a key", to be
compared with what `prob_dict` actually stores. -/
def contributions (predsT wids : List (List (List ℚ))) (k : ℚ × ℚ) :
    List (List ℚ) :=
  (allPairs predsT wids).filterMap
    (fun kv => if kv.1 = k then some kv.2 else none)

/-- The contributions to key `k` arising in `TSAnnotator.predict` on `data`:
the same pipeline prefix as `predictPairs` followed by the gather. -/
def TSAnnotator.predictContributions (m : TSAnnotator) (data : Tensor)
    (k : ℚ × ℚ) : Except Err (List (List ℚ)) := do
  let xw ← m.getXyInfer data
  let raw ← m.model.predictProba xw.1
  .ok (contributions
    ((truncStep m.data_schema.target_classes.length raw).transpose) xw.2 k)

/-- Modelled from the spec: sklearn's `f1_score(yTrue, yPred,
average="weighted")` (external library code): per-class F1 from true/false
positives and negatives, weighted by true-label support; divisions by zero
yield 0 as in sklearn's zero-division handling.  No claim depends on its
value. -/
def f1ScoreWeighted (yTrue yPred : List Int) : ℚ :=
  let pairs := yTrue.zip yPred
  let classes := (yTrue ++ yPred).dedup
  let total : ℚ := (yTrue.length : ℚ)
  let per := classes.map (fun c =>
    let tp : ℚ := ((pairs.filter (fun p => p.1 = c ∧ p.2 = c)).length : ℚ)
    let fp : ℚ := ((pairs.filter (fun p => p.2 = c ∧ p.1 ≠ c)).length : ℚ)
    let fng : ℚ := ((pairs.filter (fun p => p.1 = c ∧ p.2 ≠ c)).length : ℚ)
    let prec := tp / (tp + fp)
    let recl := tp / (tp + fng)
    let support : ℚ := ((yTrue.filter (fun t => t = c)).length : ℚ)
    support * (2 * prec * recl / (prec + recl)))
  (per.foldl (· + ·) 0) / total

/-- `TSAnnotator.evaluate`: reshape through the training arm of
`_get_X_and_y` (possible `ValueError`), then `self.model.predict`
(sklearn raises `NotFittedError` on an unfitted estimator), flatten both
label matrices and score.  The guard `if self.model is not None` is always
true (the estimator object is built in `__init__`), so the trailing
`raise NotFittedError` in the Python source is unreachable. -/
def TSAnnotator.evaluate (m : TSAnnotator) (test_data : Tensor) :
    Except Err ℚ := do
  let xy ← m.getXyTrain test_data
  let pred ← m.model.predictLabels xy.1
  .ok (f1ScoreWeighted xy.2.flatten pred.flatten)

/-- The saved-model file name `predictor.joblib`. -/
def PREDICTOR_FILE_NAME : String := "predictor.joblib"

/-- `os.path.join(model_dir_path, PREDICTOR_FILE_NAME)`. -/
def modelPath (dir : String) : String := dir ++ "/" ++ PREDICTOR_FILE_NAME

/-- Modelled from the spec: the filesystem as seen through `joblib.dump` and
`joblib.load`, a path-indexed store of serialized wrapper objects; joblib
round-trips the object unchanged. -/
abbrev Store := List (String × TSAnnotator)

/-- Lookup of a path in the store; `none` embeds a missing file. -/
def storeGet (s : Store) (p : String) : Option TSAnnotator :=
  match s with
  | [] => none
  | (q, m) :: rest => if q = p then some m else storeGet rest p

/-- `TSAnnotator.save`: raise `NotFittedError` unless `_is_trained`, else
`joblib.dump(self, path)`. -/
def TSAnnotator.save (m : TSAnnotator) (dir : String) (s : Store) :
    Except Err Store :=
  if m.is_trained = false then .error .notFitted
  else .ok ((modelPath dir, m) :: s)

/-- `TSAnnotator.load`: `joblib.load(path)`, failing when the file is
missing. -/
def TSAnnotator.load (dir : String) (s : Store) : Except Err TSAnnotator :=
  match storeGet s (modelPath dir) with
  | none => .error .fileNotFound
  | some m => .ok m

end PredictorModel

namespace PredictorModel

/-- Updating the dict at key `k` appends to the value list stored at `k` and
leaves every other key's value list unchanged. -/
theorem dget_dictAdd (d : List ((ℚ × ℚ) × List (List ℚ))) (k k2 : ℚ × ℚ)
    (v : List ℚ) :
    dget (dictAdd d k v) k2 =
      if k = k2 then dget d k2 ++ [v] else dget d k2 := by
  induction d with
  | nil => by_cases h : k = k2 <;> simp [dictAdd, dget, h]
  | cons kv rest ih =>
      obtain ⟨k3, vs⟩ := kv
      by_cases h1 : k3 = k
      · subst h1
        by_cases h2 : k3 = k2
        · subst h2; simp [dictAdd, dget]
        · simp [dictAdd, dget, h2]
      · by_cases h2 : k3 = k2
        · subst h2
          have hk : ¬ k = k3 := fun h => h1 h.symm
          simp [dictAdd, dget, h1, hk]
        · simp [dictAdd, dget, h1, h2, ih]

/-- Folding `dictAdd` over a stream of (key, vector) pairs accumulates, at
each key, exactly the vectors of the stream carrying that key, in stream
order. -/
theorem dget_foldl_dictAdd (kvs : List ((ℚ × ℚ) × List ℚ)) :
    ∀ (d : List ((ℚ × ℚ) × List (List ℚ))) (k : ℚ × ℚ),
      dget (kvs.foldl (fun d kv => dictAdd d kv.1 kv.2) d) k =
        dget d k ++ kvs.filterMap
          (fun kv => if kv.1 = k then some kv.2 else none) := by
  induction kvs with
  | nil => intro d k; simp
  | cons kv rest ih =>
      intro d k
      simp only [List.foldl_cons, List.filterMap_cons]
      rw [ih, dget_dictAdd]
      by_cases h : kv.1 = k <;> simp [h, List.append_assoc]

/-- The value list `prob_dict` stores at key `k` is exactly the gathered
contributions to `k`. -/
theorem dget_buildDict (predsT wids : List (List (List ℚ))) (k : ℚ × ℚ) :
    dget (buildDict predsT wids) k = contributions predsT wids k := by
  unfold buildDict contributions
  rw [dget_foldl_dictAdd]
  simp [dget]

/-- For a key that survives the padding filter, the comprehension's value is
the elementwise mean of the dict's value list at that key. -/
theorem aggGet_aggFilter (d : List ((ℚ × ℚ) × List (List ℚ))) (k : ℚ × ℚ)
    (h : padKeep k = true) :
    aggGet (aggFilter d) k = meanVec (dget d k) := by
  induction d with
  | nil => simp [aggFilter, aggGet, dget, meanVec]
  | cons kv rest ih =>
      obtain ⟨k2, vs⟩ := kv
      by_cases h2 : k2 = k
      · subst h2
        simp [aggFilter, List.filterMap_cons, h, aggGet, dget]
      · have ih2 := ih
        unfold aggFilter at ih2
        by_cases h3 : padKeep k2 <;>
          simp [aggFilter, List.filterMap_cons, h3, aggGet, dget, h2, ih2]

/-- Every pair surviving the comprehension has a key passing the padding
filter. -/
theorem padKeep_of_mem_aggFilter (d : List ((ℚ × ℚ) × List (List ℚ)))
    (kv : (ℚ × ℚ) × List ℚ) (h : kv ∈ aggFilter d) : padKeep kv.1 = true := by
  unfold aggFilter at h
  rw [List.mem_filterMap] at h
  obtain ⟨a, _, ha⟩ := h
  by_cases hp : padKeep a.1
  · rw [if_pos hp] at ha
    cases ha
    exact hp
  · rw [if_neg hp] at ha
    cases ha

/-- Membership in the final (key, row) list of `predict` gives membership of
the key among the aggregated keys, and identifies the row as the dict value
at that key. -/
theorem mem_pairsOut (agg : List ((ℚ × ℚ) × List ℚ)) (k : ℚ × ℚ) (v : List ℚ)
    (h : (k, v) ∈ (sortedKeys agg).map (fun k => (k, aggGet agg k))) :
    k ∈ agg.map Prod.fst ∧ v = aggGet agg k := by
  rw [List.mem_map] at h
  obtain ⟨k2, hk2, he⟩ := h
  have h1 : k2 = k := congrArg Prod.fst he
  subst h1
  have h2 : aggGet agg k2 = v := congrArg Prod.snd he
  refine ⟨?_, h2.symm⟩
  have h3 : k2 ∈ sortedKeys agg := hk2
  unfold sortedKeys at h3
  rw [List.mem_insertionSort] at h3
  exact h3

end PredictorModel

namespace PredictorModel

instance : IsTotal (ℚ × ℚ) keyLe :=
  ⟨fun a b => by
    unfold keyLe
    rcases lt_trichotomy a.1 b.1 with h | h | h
    · exact Or.inl (Or.inl h)
    · rcases le_total a.2 b.2 with h2 | h2
      · exact Or.inl (Or.inr ⟨h, h2⟩)
      · exact Or.inr (Or.inr ⟨h.symm, h2⟩)
    · exact Or.inr (Or.inl h)⟩

instance : IsTrans (ℚ × ℚ) keyLe :=
  ⟨fun a b c hab hbc => by
    unfold keyLe at *
    rcases hab with h1 | ⟨e1, le1⟩
    · rcases hbc with h2 | ⟨e2, le2⟩
      · exact Or.inl (h1.trans h2)
      · exact Or.inl (e2 ▸ h1)
    · rcases hbc with h2 | ⟨e2, le2⟩
      · exact Or.inl (e1 ▸ h2)
      · exact Or.inr ⟨e1.trans e2, le1.trans le2⟩⟩

/-- Reduction of a monadic bind on a successful `Except` value. -/
theorem exceptBind_ok {α β : Type} (a : α) (f : α → Except Err β) :
    (Except.ok a >>= f) = f a := rfl

/-- Reduction of a monadic bind on a failed `Except` value. -/
theorem exceptBind_error {α β : Type} (e : Err) (f : α → Except Err β) :
    ((Except.error e : Except Err α) >>= f) = Except.error e := rfl

/-- A successful `predictPairs` factors into a successful reshape, a
successful `predict_proba`, and the pure aggregation pipeline on their
outputs. -/
theorem predictPairs_ok (m : TSAnnotator) (data : Tensor)
    (pairs : List ((ℚ × ℚ) × List ℚ))
    (hp : m.predictPairs data = Except.ok pairs) :
    ∃ xw raw, m.getXyInfer data = Except.ok xw ∧
      m.model.predictProba xw.1 = Except.ok raw ∧
      pairs = (sortedKeys (aggFilter (buildDict
          ((truncStep m.data_schema.target_classes.length raw).transpose)
          xw.2))).map
        (fun k => (k, aggGet (aggFilter (buildDict
          ((truncStep m.data_schema.target_classes.length raw).transpose)
          xw.2)) k)) := by
  unfold TSAnnotator.predictPairs at hp
  cases h1 : m.getXyInfer data with
  | error e => rw [h1, exceptBind_error] at hp; cases hp
  | ok xw =>
      rw [h1, exceptBind_ok] at hp
      cases h2 : m.model.predictProba xw.1 with
      | error e => rw [h2, exceptBind_error] at hp; cases hp
      | ok raw =>
          rw [h2, exceptBind_ok] at hp
          exact ⟨xw, raw, rfl, h2, (Except.ok.inj hp).symm⟩

end PredictorModel

namespace PredictorModel

/-- C1: for every inference input, when two or more windows contribute a
probability vector for the same (series id, time id) key, the prediction
output row for that key is the elementwise arithmetic mean of the per-class
probability vectors contributed by the windows covering that key. -/
theorem C1_overlap_elementwise_mean (m : TSAnnotator) (data : Tensor)
    (pairs : List ((ℚ × ℚ) × List ℚ)) (k : ℚ × ℚ) (v : List ℚ)
    (contribs : List (List ℚ))
    (hp : m.predictPairs data = Except.ok pairs)
    (hmem : (k, v) ∈ pairs)
    (hc : m.predictContributions data k = Except.ok contribs)
    (htwo : 2 ≤ contribs.length) :
    v = meanVec contribs := by
  obtain ⟨xw, raw, h1, h2, hpairs⟩ := predictPairs_ok m data pairs hp
  unfold TSAnnotator.predictContributions at hc
  rw [h1, exceptBind_ok, h2, exceptBind_ok] at hc
  have hc2 := Except.ok.inj hc
  subst hpairs
  obtain ⟨hkmem, hv⟩ := mem_pairsOut _ _ _ hmem
  rw [List.mem_map] at hkmem
  obtain ⟨kv, hkv, hfst⟩ := hkmem
  have hpad : padKeep k = true := hfst ▸ padKeep_of_mem_aggFilter _ kv hkv
  rw [aggGet_aggFilter _ _ hpad, dget_buildDict] at hv
  rw [hv, hc2]

/-- C5: every (series id, time id) key reaching the prediction output has a
time id different from the reserved padding sentinel; keys whose time id
equals the sentinel are excluded. -/
theorem C5_padding_rows_excluded (m : TSAnnotator) (data : Tensor)
    (pairs : List ((ℚ × ℚ) × List ℚ)) (k : ℚ × ℚ) (v : List ℚ)
    (hp : m.predictPairs data = Except.ok pairs)
    (hmem : (k, v) ∈ pairs) :
    k.2 ≠ PADDING_VALUE := by
  obtain ⟨xw, raw, h1, h2, hpairs⟩ := predictPairs_ok m data pairs hp
  subst hpairs
  obtain ⟨hkmem, _⟩ := mem_pairsOut _ _ _ hmem
  rw [List.mem_map] at hkmem
  obtain ⟨kv, hkv, hfst⟩ := hkmem
  have hpad : padKeep k = true := hfst ▸ padKeep_of_mem_aggFilter _ kv hkv
  unfold padKeep at hpad
  exact of_decide_eq_true hpad

/-- C6: the rows of the prediction output are listed by ascending
(series id, time id) key, in the lexicographic tuple order Python's `sorted`
uses. -/
theorem C6_output_sorted_by_key (m : TSAnnotator) (data : Tensor)
    (pairs : List ((ℚ × ℚ) × List ℚ))
    (hp : m.predictPairs data = Except.ok pairs) :
    List.Sorted keyLe (pairs.map Prod.fst) := by
  obtain ⟨xw, raw, h1, h2, hpairs⟩ := predictPairs_ok m data pairs hp
  subst hpairs
  rw [List.map_map]
  have hcomp : (Prod.fst ∘ fun k => (k,
      aggGet (aggFilter (buildDict
        ((truncStep m.data_schema.target_classes.length raw).transpose)
        xw.2)) k)) = id := funext fun k => rfl
  rw [hcomp, List.map_id]
  unfold sortedKeys
  exact List.sorted_insertionSort keyLe _

/-- A two-class schema for the concrete examples below. -/
def exSchema : TSAnnotationSchema := ⟨["a", "b"]⟩

/-- A concrete fitted predictor: two outputs (timesteps), two sample windows,
two classes. -/
def exParams : FittedParams :=
  { proba := fun _ => [[[1/2, 1/2], [1/4, 3/4]], [[1/3, 2/3], [1, 0]]],
    labels := fun _ => [] }

/-- A concrete trained annotator with encode length 2. -/
def exM : TSAnnotator :=
  { data_schema := exSchema, encode_len := 2, multi_class := "one_vs_rest",
    model := ⟨some exParams⟩, is_trained := true }

/-- Two overlapping windows of series 1: times (10, 11) and (11, 12), one
covariate column. -/
def exData : Tensor := [[[1, 10, 5], [1, 11, 6]], [[1, 11, 7], [1, 12, 8]]]

/-- The prediction pairs of `exM` on `exData`: time 11 is covered by both
windows and averaged. -/
def exPairs : List ((ℚ × ℚ) × List ℚ) :=
  [((1, 10), [1/2, 1/2]), ((1, 11), [7/24, 17/24]), ((1, 12), [1, 0])]

/-- The two probability vectors contributed to key (1, 11). -/
def exContribs : List (List ℚ) := [[1/3, 2/3], [1/4, 3/4]]

theorem C1_witness :
    (exM.predictPairs exData = Except.ok exPairs ∧
      ((1, 11), [7/24, 17/24]) ∈ exPairs ∧
      exM.predictContributions exData (1, 11) = Except.ok exContribs ∧
      2 ≤ exContribs.length) ∧
    [(7 : ℚ)/24, 17/24] = meanVec exContribs :=
  ⟨⟨by with_unfolding_all rfl, List.Mem.tail _ (List.Mem.head _),
      by with_unfolding_all rfl, by decide⟩,
   C1_overlap_elementwise_mean exM exData exPairs (1, 11) [7/24, 17/24]
     exContribs (by with_unfolding_all rfl) (List.Mem.tail _ (List.Mem.head _))
     (by with_unfolding_all rfl) (by decide)⟩

theorem C5_witness :
    (exM.predictPairs exData = Except.ok exPairs ∧
      ((1, 10), [1/2, 1/2]) ∈ exPairs) ∧
    ((1 : ℚ), (10 : ℚ)).2 ≠ PADDING_VALUE :=
  ⟨⟨by with_unfolding_all rfl, List.Mem.head _⟩,
   C5_padding_rows_excluded exM exData exPairs (1, 10) [1/2, 1/2]
     (by with_unfolding_all rfl) (List.Mem.head _)⟩

theorem C6_witness :
    exM.predictPairs exData = Except.ok exPairs ∧
    List.Sorted keyLe (exPairs.map Prod.fst) :=
  ⟨by with_unfolding_all rfl,
   C6_output_sorted_by_key exM exData exPairs (by with_unfolding_all rfl)⟩

end PredictorModel

namespace PredictorModel

/-- For a nonempty rectangular tensor, the length of the first window is the
shared window length T, which is what `data.shape` unpacking yields. -/
theorem headD_length_of_hasShape (data : Tensor) (N T D : ℕ)
    (hs : HasShape data N T D) (hN : 0 < N) :
    (data.headD []).length = T := by
  cases data with
  | nil =>
      exfalso
      have h0 : (0 : ℕ) = N := hs.1
      omega
  | cons w rest => exact (hs.2 w (by simp)).1

/-- C7: calling fit on a training tensor of shape (N, T, D) with T different
from the configured encode length raises `ValueError`; no trained model is
produced. -/
theorem C7_fit_wrong_window_length (learn : List (List ℚ) → List (List Int) → FittedParams)
    (m : TSAnnotator) (data : Tensor) (N T D : ℕ)
    (hs : HasShape data N T D) (hN : 0 < N) (hT : T ≠ m.encode_len) :
    m.fit learn data = Except.error Err.valueError := by
  unfold TSAnnotator.fit TSAnnotator.getXyTrain
  rw [if_pos, exceptBind_error]
  rw [headD_length_of_hasShape data N T D hs hN]
  exact hT

/-- C8: calling predict on an inference tensor of shape (N, T, D) with T
strictly less than the configured encode length raises `ValueError`. -/
theorem C8_predict_short_window (m : TSAnnotator) (data : Tensor) (N T D : ℕ)
    (hs : HasShape data N T D) (hN : 0 < N) (hT : T < m.encode_len) :
    m.predict data = Except.error Err.valueError := by
  unfold TSAnnotator.predict TSAnnotator.predictPairs TSAnnotator.getXyInfer
  rw [if_pos, exceptBind_error]
  · rfl
  · rw [headD_length_of_hasShape data N T D hs hN]
    exact hT

/-- C9: evaluate reshapes its input through the training arm of
`_get_X_and_y`, so a test tensor of shape (N, T, D) with T different from
the encode length raises `ValueError` before the estimator or the metric is
reached. -/
theorem C9_evaluate_wrong_window_length (m : TSAnnotator) (data : Tensor)
    (N T D : ℕ) (hs : HasShape data N T D) (hN : 0 < N)
    (hT : T ≠ m.encode_len) :
    m.evaluate data = Except.error Err.valueError := by
  unfold TSAnnotator.evaluate TSAnnotator.getXyTrain
  rw [if_pos, exceptBind_error]
  rw [headD_length_of_hasShape data N T D hs hN]
  exact hT

/-- A one-class schema and annotator for the shape-error witnesses. -/
def exM2 : TSAnnotator := TSAnnotator.new ⟨["a", "b"]⟩ 2 "one_vs_rest"

/-- A (1, 1, 4) tensor: one window with a single timestep. -/
def exShort : Tensor := [[[0, 0, 0, 0]]]

theorem C7_witness :
    (HasShape exShort 1 1 4 ∧ 0 < 1 ∧ 1 ≠ exM2.encode_len) ∧
    exM2.fit (fun _ _ => ⟨fun _ => [], fun _ => []⟩) exShort =
      Except.error Err.valueError :=
  ⟨⟨by unfold HasShape exShort; decide, by decide, by decide⟩,
   C7_fit_wrong_window_length _ exM2 exShort 1 1 4 (by unfold HasShape exShort; decide) (by decide)
     (by decide)⟩

theorem C8_witness :
    (HasShape exShort 1 1 4 ∧ 0 < 1 ∧ 1 < exM2.encode_len) ∧
    exM2.predict exShort = Except.error Err.valueError :=
  ⟨⟨by unfold HasShape exShort; decide, by decide, by decide⟩,
   C8_predict_short_window exM2 exShort 1 1 4 (by unfold HasShape exShort; decide) (by decide)
     (by decide)⟩

theorem C9_witness :
    (HasShape exShort 1 1 4 ∧ 0 < 1 ∧ 1 ≠ exM2.encode_len) ∧
    exM2.evaluate exShort = Except.error Err.valueError :=
  ⟨⟨by unfold HasShape exShort; decide, by decide, by decide⟩,
   C9_evaluate_wrong_window_length exM2 exShort 1 1 4 (by unfold HasShape exShort; decide) (by decide)
     (by decide)⟩

end PredictorModel

namespace PredictorModel

/-- C3 counterexample: on an annotator on which fit has never been called,
`evaluate` applied to a tensor failing the training-shape check raises
`ValueError`, not a not-fitted error, so the unconditional claim fails. -/
theorem C3_counterexample_shape_error_first :
    exM2.evaluate exShort = Except.error Err.valueError ∧
    Except.error Err.valueError ≠ (Except.error Err.notFitted : Except Err ℚ) := by
  constructor
  · with_unfolding_all rfl
  · intro h
    exact absurd (Except.error.inj h) (by decide)

/-- C3 (amended): on an annotator on which fit has not been called, `save`
always raises the not-fitted error, and `evaluate` raises the not-fitted
error provided the input passes the training-shape check (window length
equal to the configured encode length); a mis-shaped input raises
`ValueError` first. -/
theorem C3_unfitted_evaluate_save_not_fitted (schema : TSAnnotationSchema)
    (el : ℕ) (mc : String) (data : Tensor) (dir : String) (store : Store)
    (hT : (data.headD []).length = el) :
    (TSAnnotator.new schema el mc).evaluate data = Except.error Err.notFitted ∧
    (TSAnnotator.new schema el mc).save dir store = Except.error Err.notFitted := by
  constructor
  · unfold TSAnnotator.evaluate TSAnnotator.getXyTrain
    rw [if_neg, exceptBind_ok]
    · rfl
    · intro h
      exact h hT
  · rfl

theorem C3_witness :
    ((([[[0, 0, 0]]] : Tensor).headD []).length = 1) ∧
    (TSAnnotator.new ⟨["a"]⟩ 1 "ovr").evaluate [[[0, 0, 0]]] =
      Except.error Err.notFitted ∧
    (TSAnnotator.new ⟨["a"]⟩ 1 "ovr").save "d" [] =
      Except.error Err.notFitted :=
  ⟨rfl,
   (C3_unfitted_evaluate_save_not_fitted ⟨["a"]⟩ 1 "ovr" [[[0, 0, 0]]] "d" []
     rfl).1,
   (C3_unfitted_evaluate_save_not_fitted ⟨["a"]⟩ 1 "ovr" [[[0, 0, 0]]] "d" []
     rfl).2⟩

/-- C4: saving a trained model and loading it back from the same directory
returns the identical wrapper object, so predicting with the reloaded model
yields exactly the original model's prediction output. -/
theorem C4_save_load_roundtrip (m : TSAnnotator) (dir : String)
    (store store2 : Store) (data : Tensor)
    (ht : m.is_trained = true)
    (hs : m.save dir store = Except.ok store2) :
    (TSAnnotator.load dir store2).map (fun m2 => m2.predict data) =
      Except.ok (m.predict data) := by
  unfold TSAnnotator.save at hs
  rw [ht] at hs
  simp only [Bool.true_eq_false, if_false] at hs
  have h2 : store2 = (modelPath dir, m) :: store := (Except.ok.inj hs).symm
  subst h2
  simp [TSAnnotator.load, storeGet, Except.map]

theorem C4_witness :
    (exM.is_trained = true ∧
      exM.save "dir" [] = Except.ok [(modelPath "dir", exM)]) ∧
    (TSAnnotator.load "dir" [(modelPath "dir", exM)]).map
        (fun m2 => m2.predict exData) = Except.ok (exM.predict exData) :=
  ⟨⟨rfl, by with_unfolding_all rfl⟩,
   C4_save_load_roundtrip exM "dir" [] [(modelPath "dir", exM)] exData rfl
     (by with_unfolding_all rfl)⟩

/-- C2: observed truncation behavior, contradicting the claim.  With two
target classes, a per-output block of two sample rows each holding three
probability columns is left untouched — its sample count 2 is not greater
than the class count 2 — so 3-entry probability vectors survive; whereas a
block of three 2-entry sample rows loses its whole last row (the last
window's prediction).  The code compares the sample count `shape[0]` with
the class count and drops a row; it never removes a column. -/
theorem C2_truncation_drops_row_not_column :
    truncStep 2 [[[1/2, 1/4, 1/4], [1/3, 1/3, 1/3]]] =
      [[[1/2, 1/4, 1/4], [1/3, 1/3, 1/3]]] ∧
    ([(1 : ℚ)/2, 1/4, 1/4].length = 3) ∧
    truncStep 2 [[[1/2, 1/2], [1/3, 2/3], [1/4, 3/4]]] =
      [[[1/2, 1/2], [1/3, 2/3]]] :=
  ⟨rfl, rfl, rfl⟩

/-- Auxiliary for C10: the (key, vector) stream of one window depends on its
id rows only through the per-step time ids (column 1); the series id used in
every key is the separately passed `sid`. -/
theorem windowPairs_congr (sid : ℚ) (pred : List (List ℚ)) :
    ∀ (wid wid2 : List (List ℚ)), wid.length = wid2.length →
      (∀ j, timeIdOf (wid.getD j []) = timeIdOf (wid2.getD j [])) →
      windowPairs sid pred wid = windowPairs sid pred wid2 := by
  induction pred with
  | nil => intro wid wid2 _ _; rfl
  | cons p ps ih =>
      intro wid wid2 hlen htid
      cases wid with
      | nil =>
          cases wid2 with
          | nil => rfl
          | cons w2 ws2 => cases hlen
      | cons w ws =>
          cases wid2 with
          | nil => cases hlen
          | cons w2 ws2 =>
              have h0 : timeIdOf w = timeIdOf w2 := htid 0
              have ht : windowPairs sid ps ws = windowPairs sid ps ws2 :=
                ih ws ws2 (Nat.succ.inj hlen) (fun j => htid (j + 1))
              unfold windowPairs at ht ⊢
              simp only [List.zip_cons_cons, List.map_cons]
              rw [h0, ht]

/-- C10: predict keys every timestep of a window by the series id found at
column 0 of the window's first timestep (`seriesIdOf`), so two id windows
agreeing on that entry and on every per-step time id (column 1) — however
much their series-id entries at the other timesteps differ — yield identical
(key, probability-vector) streams; and the padding filter inspects only the
time-id component of a key, never the series id. -/
theorem C10_keying_first_step_series_id (pred wid wid2 : List (List ℚ))
    (s s2 t : ℚ)
    (hlen : wid.length = wid2.length)
    (hsid : seriesIdOf wid = seriesIdOf wid2)
    (htid : ∀ j, timeIdOf (wid.getD j []) = timeIdOf (wid2.getD j [])) :
    windowPairs (seriesIdOf wid) pred wid =
      windowPairs (seriesIdOf wid2) pred wid2 ∧
    padKeep (s, t) = padKeep (s2, t) := by
  constructor
  · rw [hsid]
    exact windowPairs_congr (seriesIdOf wid2) pred wid wid2 hlen htid
  · rfl

/-- Two id windows for the C10 witness: same first-step series id 1 and same
time ids (10, 11), different series id stored at the second timestep. -/
def exWid : List (List ℚ) := [[1, 10], [2, 11]]

/-- Same as `exWid` except the series-id entry of the second timestep. -/
def exWid2 : List (List ℚ) := [[1, 10], [9, 11]]

/-- A two-step probability prediction for the C10 witness. -/
def exPred : List (List ℚ) := [[1/2, 1/2], [1/4, 3/4]]

theorem C10_witness :
    (exWid.length = exWid2.length ∧ seriesIdOf exWid = seriesIdOf exWid2 ∧
      ∀ j, timeIdOf (exWid.getD j []) = timeIdOf (exWid2.getD j [])) ∧
    (windowPairs (seriesIdOf exWid) exPred exWid =
        windowPairs (seriesIdOf exWid2) exPred exWid2 ∧
      padKeep (3, 10) = padKeep (5, 10)) :=
  ⟨⟨rfl, rfl, fun j => by
      match j with
      | 0 => rfl
      | 1 => rfl
      | n + 2 => rfl⟩,
   C10_keying_first_step_series_id exPred exWid exWid2 3 5 10 rfl rfl
     (fun j => by
      match j with
      | 0 => rfl
      | 1 => rfl
      | n + 2 => rfl)⟩

end PredictorModel
